import Mathlib

/-!
Verification of `scripts/todoist_client.py` (obs-planner repository).

The Python program is shallowly embedded: Python/JSON values are modelled
by an inductive `Json` type (Python `None` is `Json.null`, which is what
`json.load` produces for JSON `null` and what `dict.get` returns for a
missing key), HTTP traffic is modelled by an oracle `Request → Response`,
and the filesystem/environment by explicit oracle functions.  Every
definition is translated from the source file; `raise_for_status` is
modelled from the documented behaviour of `requests.Response.raise_for_status`
(raise `HTTPError` exactly for 4xx and 5xx status codes).
-/

namespace Todoist

/-- JSON values, doubling as the Python values this script passes around
(`None` = `null`; the script only handles JSON-serialisable values). -/
inductive Json where
  | null : Json
  | bool (b : Bool) : Json
  | num (n : Int) : Json
  | str (s : String) : Json
  | arr (xs : List Json) : Json
  | obj (fields : List (String × Json)) : Json
  deriving Repr

/-- Python truthiness (`if x:`) for the values the script tests:
`None`, `False`, `0`, `""`, `[]`, `{}` are falsy. -/
def Json.truthy : Json → Bool
  | .null => false
  | .bool b => b
  | .num n => n != 0
  | .str s => !s.isEmpty
  | .arr xs => !xs.isEmpty
  | .obj fs => !fs.isEmpty

/-- Python `x is None` test. -/
def Json.isNull : Json → Bool
  | .null => true
  | _ => false

/-- Python `dict.get(k)`: the value at key `k`, or `None` when the key is
missing.  (The script only calls `.get` on parsed JSON objects.) -/
def Json.get : Json → String → Json
  | .obj fs, k =>
      match fs.find? (fun kv => kv.1 == k) with
      | some kv => kv.2
      | none => .null
  | _, _ => .null

/-- Whether the batch element is a JSON object (a Python `dict`). -/
def Json.isObj : Json → Bool
  | .obj _ => true
  | _ => false

/-- Python f-string rendering for the argparse-supplied values the CLI
interpolates into URLs and messages (always `None` or a string there). -/
def Json.pyStr : Json → String
  | .str s => s
  | .null => "None"
  | _ => ""

/-- Lookup in a request body (an insertion-ordered association list,
modelling a Python dict): first binding of the key, if any. -/
def bodyLookup (body : List (String × Json)) (k : String) : Option Json :=
  match body.find? (fun kv => kv.1 == k) with
  | some kv => some kv.2
  | none => none

/-- HTTP methods used by the script. -/
inductive Method where
  | get | post | delete
  deriving Repr, DecidableEq

/-- Endpoints under the fixed base URL `https://api.todoist.com/rest/v2`. -/
inductive Endpoint where
  | tasks : Endpoint
  | task (id : Json) : Endpoint
  | taskClose (id : Json) : Endpoint
  deriving Repr

/-- An HTTP request as assembled by the `requests` calls in the script. -/
structure Request where
  method : Method
  endpoint : Endpoint
  headers : List (String × String)
  params : List (String × Json)
  body : Option (List (String × Json))
  deriving Repr

/-- An HTTP response: status code and parsed JSON body (`resp.json()`,
also what the raised `HTTPError` exposes for an error response). -/
structure Response where
  status : Nat
  body : Json
  deriving Repr

/-- The failure raised by `resp.raise_for_status()`, carrying the
response status and body. -/
structure HTTPError where
  status : Nat
  body : Json
  deriving Repr

/-- `requests.Response.raise_for_status` raises exactly for client-error
(4xx) and server-error (5xx) status codes. -/
def isErrorStatus (s : Nat) : Bool :=
  400 ≤ s && s < 600

/-- `resp.raise_for_status()` as an `Except`. -/
def raise_for_status (resp : Response) : Except HTTPError Unit :=
  if isErrorStatus resp.status then .error ⟨resp.status, resp.body⟩ else .ok ()

/-- The client object after successful construction: the resolved token. -/
structure TodoistClient where
  token : String
  deriving Repr

/-- `self.headers` as set in `__init__`. -/
def TodoistClient.headers (c : TodoistClient) : List (String × String) :=
  [("Authorization", "Bearer " ++ c.token), ("Content-Type", "application/json")]

/-! ### Credential resolution (`TodoistClient.__init__`) -/

/-- The process environment and secret files visible to `__init__`:
`os.environ.get`, `os.path.exists`, and file contents. -/
structure Env where
  getenv : String → Option String
  fileExists : String → Bool
  fileContents : String → String

/-- Python `if not self.token:` — `self.token` is `None` or a string. -/
def tokenFalsy : Option String → Bool
  | none => true
  | some s => s.isEmpty

/-- The token produced by the resolution code in `__init__`: the
`TODOIST_TOKEN` environment variable, and when that is missing or empty,
the first existing file among `/run/secrets/todoist_token` and
`/run/secrets/TODOIST_TOKEN`, stripped (the loop `break`s at the first
existing file). -/
def resolveToken (w : Env) : Option String :=
  let token := w.getenv "TODOIST_TOKEN"
  if tokenFalsy token then
    if w.fileExists "/run/secrets/todoist_token" then
      some (w.fileContents "/run/secrets/todoist_token").trim
    else if w.fileExists "/run/secrets/TODOIST_TOKEN" then
      some (w.fileContents "/run/secrets/TODOIST_TOKEN").trim
    else token
  else token

/-- Outcome of `TodoistClient.__init__`: either a constructed client, or
`sys.exit(code)` after printing `stderrMsg` to standard error. -/
inductive InitResult where
  | ok (client : TodoistClient) : InitResult
  | exited (code : Nat) (stderrMsg : String) : InitResult
  deriving Repr

/-- The diagnostic printed to stderr when no token is found. -/
def missingTokenMsg : String :=
  "Error: TODOIST_TOKEN environment variable or /run/secrets/todoist_token not found."

/-- `TodoistClient.__init__`: resolve the token; if it is still missing or
empty, print a diagnostic to stderr and `sys.exit(1)`. -/
def TodoistClient.init (w : Env) : InitResult :=
  let token := resolveToken w
  if tokenFalsy token then
    .exited 1 missingTokenMsg
  else
    .ok ⟨token.getD ""⟩

/-! ### Request bodies and client operations -/

/-- The query parameters of `list_tasks`:
`{"project_id": project_id} if project_id else {}`. -/
def listTasksParams (project_id : Json) : List (String × Json) :=
  if project_id.truthy then [("project_id", project_id)] else []

/-- The request issued by `list_tasks`. -/
def listTasksRequest (c : TodoistClient) (project_id : Json) : Request :=
  { method := .get, endpoint := .tasks, headers := c.headers,
    params := listTasksParams project_id, body := none }

/-- The JSON body assembled by `create_task`: `content` and `project_id`
always; `labels` and `description` only when truthy (`if labels:` /
`if description:`). -/
def createTaskBody (content project_id labels description : Json) :
    List (String × Json) :=
  let data := [("content", content), ("project_id", project_id)]
  let data := if labels.truthy then data ++ [("labels", labels)] else data
  if description.truthy then data ++ [("description", description)] else data

/-- The request issued by `create_task`. -/
def createTaskRequest (c : TodoistClient) (content project_id labels description : Json) :
    Request :=
  { method := .post, endpoint := .tasks, headers := c.headers, params := [],
    body := some (createTaskBody content project_id labels description) }

/-- The JSON body assembled by `update_task`: `labels` and `description`
each included exactly when not `None` (`if labels is not None:` /
`if description is not None:`). -/
def updateTaskBody (labels description : Json) : List (String × Json) :=
  let data : List (String × Json) := []
  let data := if !labels.isNull then data ++ [("labels", labels)] else data
  if !description.isNull then data ++ [("description", description)] else data

/-- The request issued by `update_task`. -/
def updateTaskRequest (c : TodoistClient) (task_id labels description : Json) : Request :=
  { method := .post, endpoint := .task task_id, headers := c.headers, params := [],
    body := some (updateTaskBody labels description) }

/-- The request issued by `delete_task`. -/
def deleteTaskRequest (c : TodoistClient) (task_id : Json) : Request :=
  { method := .delete, endpoint := .task task_id, headers := c.headers,
    params := [], body := none }

/-- The request issued by `complete_task`. -/
def completeTaskRequest (c : TodoistClient) (task_id : Json) : Request :=
  { method := .post, endpoint := .taskClose task_id, headers := c.headers,
    params := [], body := none }

/-- Send a request, `raise_for_status`, and return `resp.json()`. -/
def sendJson (http : Request → Response) (req : Request) : Except HTTPError Json :=
  let resp := http req
  match raise_for_status resp with
  | .error e => .error e
  | .ok _ => .ok resp.body

/-- Send a request, `raise_for_status`, and return `True`
(for `delete_task` / `complete_task`). -/
def sendTrue (http : Request → Response) (req : Request) : Except HTTPError Bool :=
  let resp := http req
  match raise_for_status resp with
  | .error e => .error e
  | .ok _ => .ok true

/-- `TodoistClient.list_tasks`. -/
def TodoistClient.list_tasks (c : TodoistClient) (http : Request → Response)
    (project_id : Json := .null) : Except HTTPError Json :=
  sendJson http (listTasksRequest c project_id)

/-- `TodoistClient.create_task`. -/
def TodoistClient.create_task (c : TodoistClient) (http : Request → Response)
    (content project_id : Json) (labels : Json := .null)
    (description : Json := .null) : Except HTTPError Json :=
  sendJson http (createTaskRequest c content project_id labels description)

/-- `TodoistClient.delete_task`. -/
def TodoistClient.delete_task (c : TodoistClient) (http : Request → Response)
    (task_id : Json) : Except HTTPError Bool :=
  sendTrue http (deleteTaskRequest c task_id)

/-- `TodoistClient.complete_task`. -/
def TodoistClient.complete_task (c : TodoistClient) (http : Request → Response)
    (task_id : Json) : Except HTTPError Bool :=
  sendTrue http (completeTaskRequest c task_id)

/-- `TodoistClient.update_task`. -/
def TodoistClient.update_task (c : TodoistClient) (http : Request → Response)
    (task_id : Json) (labels : Json := .null) (description : Json := .null) :
    Except HTTPError Json :=
  sendJson http (updateTaskRequest c task_id labels description)

/-- `load_tasks_from_file` applied to the parsed JSON payload of the file:
a `ValueError` unless the payload is a JSON array. -/
def load_tasks_from_file (payload : Json) : Except String (List Json) :=
  match payload with
  | .arr xs => .ok xs
  | _ => .error "Batch payload must be a JSON array."

/-- Whether a JSON payload is an array. -/
def Json.isArr : Json → Bool
  | .arr _ => true
  | _ => false

/-! ### CLI front-end (`__main__` block) -/

/-- The argparse result: `command` plus the six optional flags, each
`None` (`Json.null`) or a string. -/
structure Args where
  command : String
  project : Json := .null
  content : Json := .null
  id : Json := .null
  labels : Json := .null
  description : Json := .null
  file : Json := .null

/-- `args.labels.split(",") if args.labels else None` — the CLI turns the
comma-joined `--labels` string into a list, or `None` when absent/empty. -/
def cliLabels : Json → Json
  | .str s => if s.isEmpty then .null else .arr ((s.splitOn ",").map Json.str)
  | _ => .null

/-- How the process ends after dispatch: normally, or by one of the
uncaught exceptions the script can raise.  Python exits with code 1 for
`SystemExit("msg")` and for any uncaught exception. -/
inductive CliOutcome where
  | success : CliOutcome
  | initExit (stderrMsg : String) : CliOutcome
  | systemExit (msg : String) : CliOutcome
  | valueError (msg : String) : CliOutcome
  | httpError (e : HTTPError) : CliOutcome

/-- The process exit code each outcome produces. -/
def CliOutcome.exitCode : CliOutcome → Nat
  | .success => 0
  | _ => 1

/-- Observable behaviour of one CLI invocation: the HTTP requests issued
(in order), the values printed to stdout (in order; `json.dumps` output is
kept as the JSON value it serialises), and how the process ended. -/
structure CliResult where
  requests : List Request
  printed : List Json
  outcome : CliOutcome

/-- The invocation's exit code. -/
def CliResult.exitCode (r : CliResult) : Nat :=
  r.outcome.exitCode

/-- The request the batch loop issues for one batch element:
`create_task(task.get("content"), args.project, task.get("labels"),
task.get("description"))`. -/
def batchRequest (c : TodoistClient) (project task : Json) : Request :=
  createTaskRequest c (task.get "content") project (task.get "labels")
    (task.get "description")

/-- The `create-batch` loop: one `create_task` call per element in order,
appending each result; the first error status aborts the loop and the
`HTTPError` propagates.  Returns the requests actually issued and either
the created task objects in order or the error. -/
def createBatchRun (c : TodoistClient) (http : Request → Response)
    (project : Json) : List Json → List Request × Except HTTPError (List Json)
  | [] => ([], .ok [])
  | task :: rest =>
      let req := batchRequest c project task
      let resp := http req
      if isErrorStatus resp.status then
        ([req], .error ⟨resp.status, resp.body⟩)
      else
        let (reqs, res) := createBatchRun c http project rest
        (req :: reqs,
          match res with
          | .ok created => .ok (resp.body :: created)
          | .error e => .error e)

/-- The `__main__` dispatch: construct the client (which may exit), then
run the chosen subcommand; `readFile` maps the `--file` path to the parsed
JSON payload `json.load` produces. -/
def runMain (w : Env) (http : Request → Response) (readFile : Json → Json)
    (args : Args) : CliResult :=
  match TodoistClient.init w with
  | .exited _ msg => ⟨[], [], .initExit msg⟩
  | .ok client =>
    if args.command == "list" then
      let req := listTasksRequest client args.project
      match client.list_tasks http args.project with
      | .ok j => ⟨[req], [j], .success⟩
      | .error e => ⟨[req], [], .httpError e⟩
    else if args.command == "create" then
      let labels := cliLabels args.labels
      let req := createTaskRequest client args.content args.project labels .null
      match client.create_task http args.content args.project labels with
      | .ok j => ⟨[req], [j], .success⟩
      | .error e => ⟨[req], [], .httpError e⟩
    else if args.command == "create-batch" then
      if !args.project.truthy then
        ⟨[], [], .systemExit "create-batch requires --project"⟩
      else if !args.file.truthy then
        ⟨[], [], .systemExit "create-batch requires --file"⟩
      else
        match load_tasks_from_file (readFile args.file) with
        | .error msg => ⟨[], [], .valueError msg⟩
        | .ok batch =>
          let (reqs, res) := createBatchRun client http args.project batch
          match res with
          | .ok created => ⟨reqs, [Json.arr created], .success⟩
          | .error e => ⟨reqs, [], .httpError e⟩
    else if args.command == "update" then
      let labels := cliLabels args.labels
      let req := updateTaskRequest client args.id labels args.description
      match client.update_task http args.id labels args.description with
      | .ok j => ⟨[req], [j], .success⟩
      | .error e => ⟨[req], [], .httpError e⟩
    else if args.command == "delete" then
      let req := deleteTaskRequest client args.id
      match client.delete_task http args.id with
      | .ok _ => ⟨[req], [.str ("Deleted " ++ args.id.pyStr)], .success⟩
      | .error e => ⟨[req], [], .httpError e⟩
    else if args.command == "complete" then
      let req := completeTaskRequest client args.id
      match client.complete_task http args.id with
      | .ok _ => ⟨[req], [.str ("Completed " ++ args.id.pyStr)], .success⟩
      | .error e => ⟨[req], [], .httpError e⟩
    else
      ⟨[], [], .success⟩

/-! ### Concrete fixtures (used to instantiate theorems with hypotheses) -/

/-- A world where the token environment variable is set. -/
def envWithToken : Env := ⟨fun _ => some "tok", fun _ => false, fun _ => ""⟩

/-- A world with no token in the environment and no secret files. -/
def envNoToken : Env := ⟨fun _ => none, fun _ => false, fun _ => ""⟩

/-- An HTTP oracle answering every request with status 200. -/
def httpAlwaysOk : Request → Response := fun _ => ⟨200, Json.obj []⟩

/-- An HTTP oracle answering every request with status 400. -/
def httpAlways400 : Request → Response := fun _ => ⟨400, Json.str "bad request"⟩

/-- An HTTP oracle failing exactly the requests whose JSON body starts
with content `"B"`, with status 400. -/
def httpFailsOnB : Request → Response := fun r =>
  match r.body with
  | some (("content", Json.str "B") :: _) => ⟨400, Json.str "bad request"⟩
  | _ => ⟨200, Json.obj []⟩

/-! ### Helper lemmas -/

/-- The `create_task` body never contains a `description` key when the
`description` argument is the default `None`. -/
theorem createTaskBody_null_description (content project labels : Json) :
    bodyLookup (createTaskBody content project labels .null) "description" = none := by
  unfold createTaskBody
  cases h : labels.truthy <;> simp [h, Json.truthy, bodyLookup, List.find?]

/-- The `create_task` body always carries `project_id` mapped to the
`project_id` argument. -/
theorem createTaskBody_project_id (content project labels description : Json) :
    bodyLookup (createTaskBody content project labels description) "project_id"
      = some project := by
  unfold createTaskBody
  cases hl : labels.truthy <;> cases hd : description.truthy <;>
    simp [hl, hd, bodyLookup, List.find?]

/-- `load_tasks_from_file` rejects every non-array payload with the same
`ValueError` message. -/
theorem load_tasks_from_file_not_arr (payload : Json)
    (h : payload.isArr = false) :
    load_tasks_from_file payload = .error "Batch payload must be a JSON array." := by
  cases payload <;> first | rfl | simp [Json.isArr] at h

/-- When every per-element request succeeds, the batch loop issues one
request per element in order and collects the response bodies in order. -/
theorem createBatchRun_ok (c : TodoistClient) (http : Request → Response)
    (project : Json) (tasks : List Json)
    (hok : ∀ task ∈ tasks,
      isErrorStatus (http (batchRequest c project task)).status = false) :
    createBatchRun c http project tasks
      = (tasks.map (batchRequest c project),
         .ok (tasks.map fun task => (http (batchRequest c project task)).body)) := by
  induction tasks with
  | nil => rfl
  | cons task rest ih =>
      have h1 : isErrorStatus (http (batchRequest c project task)).status = false :=
        hok task (List.mem_cons_self _ _)
      have h2 : ∀ t ∈ rest,
          isErrorStatus (http (batchRequest c project t)).status = false :=
        fun t ht => hok t (List.mem_cons_of_mem _ ht)
      simp [createBatchRun, h1, ih h2]

/-- When every request before some element succeeds and that element's
request has an error status, the batch loop issues exactly the earlier
requests plus the failing one and propagates the error. -/
theorem createBatchRun_err (c : TodoistClient) (http : Request → Response)
    (project t : Json) (pre post : List Json)
    (hpre : ∀ task ∈ pre,
      isErrorStatus (http (batchRequest c project task)).status = false)
    (herr : isErrorStatus (http (batchRequest c project t)).status = true) :
    createBatchRun c http project (pre ++ t :: post)
      = (pre.map (batchRequest c project) ++ [batchRequest c project t],
         .error ⟨(http (batchRequest c project t)).status,
                 (http (batchRequest c project t)).body⟩) := by
  induction pre with
  | nil => simp [createBatchRun, herr]
  | cons task rest ih =>
      have h1 : isErrorStatus (http (batchRequest c project task)).status = false :=
        hpre task (List.mem_cons_self _ _)
      have h2 : ∀ x ∈ rest,
          isErrorStatus (http (batchRequest c project x)).status = false :=
        fun x hx => hpre x (List.mem_cons_of_mem _ hx)
      simp [createBatchRun, h1, ih h2]

/-! ### Claims -/

/-- C3: on an array batch payload with project `P`, `create-batch` issues
one create call per element, sequentially in input order, each body
carrying `project_id = P` (the elements supply only content, labels and
description), and on full success prints the array of created task objects
in input order. -/
theorem create_batch_in_order (c : TodoistClient) (http : Request → Response)
    (project : Json) (tasks : List Json)
    (_hobj : ∀ task ∈ tasks, task.isObj = true)
    (hok : ∀ task ∈ tasks,
      isErrorStatus (http (batchRequest c project task)).status = false) :
    createBatchRun c http project tasks
      = (tasks.map (batchRequest c project),
         .ok (tasks.map fun task => (http (batchRequest c project task)).body)) ∧
    (∀ task ∈ tasks,
      bodyLookup (createTaskBody (task.get "content") project (task.get "labels")
        (task.get "description")) "project_id" = some project) ∧
    (∀ w readFile args, TodoistClient.init w = .ok c →
      args.command = "create-batch" → args.project = project →
      project.truthy = true → args.file.truthy = true →
      readFile args.file = .arr tasks →
      runMain w http readFile args
        = ⟨tasks.map (batchRequest c project),
           [Json.arr (tasks.map fun task => (http (batchRequest c project task)).body)],
           .success⟩) := by
  refine ⟨createBatchRun_ok c http project tasks hok, ?_, ?_⟩
  · intro task _
    exact createTaskBody_project_id _ _ _ _
  · intro w readFile args hinit hcmd hproj hptruthy hftruthy hfile
    simp [runMain, hinit, hcmd, hproj, hptruthy, hftruthy, hfile,
      load_tasks_from_file, createBatchRun_ok c http project tasks hok]

/-- C3 witness: a two-element batch against an all-200 oracle issues both
requests in order and returns both created objects in order. -/
theorem create_batch_in_order_witness :
    createBatchRun ⟨"tok"⟩ httpAlwaysOk (.str "P")
        [.obj [("content", .str "A")], .obj [("content", .str "B")]]
      = ([batchRequest ⟨"tok"⟩ (.str "P") (.obj [("content", .str "A")]),
          batchRequest ⟨"tok"⟩ (.str "P") (.obj [("content", .str "B")])],
         .ok [Json.obj [], Json.obj []]) :=
  (create_batch_in_order ⟨"tok"⟩ httpAlwaysOk (.str "P")
    [.obj [("content", .str "A")], .obj [("content", .str "B")]]
    (by decide) (by decide)).1

/-- C4: when the requests for all elements before `t` succeed and the
request for `t` fails, the batch loop has issued exactly the earlier
requests plus `t`'s (nothing after `t`), the error propagates with no
partial output, and the process exits with code 1. -/
theorem create_batch_stops_at_first_error (c : TodoistClient)
    (http : Request → Response) (project t : Json) (pre post : List Json)
    (_hobj : ∀ task ∈ pre ++ t :: post, task.isObj = true)
    (hpre : ∀ task ∈ pre,
      isErrorStatus (http (batchRequest c project task)).status = false)
    (herr : isErrorStatus (http (batchRequest c project t)).status = true) :
    createBatchRun c http project (pre ++ t :: post)
      = (pre.map (batchRequest c project) ++ [batchRequest c project t],
         .error ⟨(http (batchRequest c project t)).status,
                 (http (batchRequest c project t)).body⟩) ∧
    (∀ w readFile args, TodoistClient.init w = .ok c →
      args.command = "create-batch" → args.project = project →
      project.truthy = true → args.file.truthy = true →
      readFile args.file = .arr (pre ++ t :: post) →
      runMain w http readFile args
        = ⟨pre.map (batchRequest c project) ++ [batchRequest c project t], [],
           .httpError ⟨(http (batchRequest c project t)).status,
                       (http (batchRequest c project t)).body⟩⟩ ∧
      (runMain w http readFile args).exitCode = 1) := by
  refine ⟨createBatchRun_err c http project t pre post hpre herr, ?_⟩
  intro w readFile args hinit hcmd hproj hptruthy hftruthy hfile
  have hrun : runMain w http readFile args
      = ⟨pre.map (batchRequest c project) ++ [batchRequest c project t], [],
         .httpError ⟨(http (batchRequest c project t)).status,
                     (http (batchRequest c project t)).body⟩⟩ := by
    simp [runMain, hinit, hcmd, hproj, hptruthy, hftruthy, hfile,
      load_tasks_from_file, createBatchRun_err c http project t pre post hpre herr]
  exact ⟨hrun, by simp [hrun, CliResult.exitCode, CliOutcome.exitCode]⟩

/-- C4 witness: in the batch `[A, B, C]` where `B`'s request gets a 400,
the calls for `A` and `B` were issued, no call for `C` is issued, and the
error with status 400 propagates. -/
theorem create_batch_stops_at_first_error_witness :
    createBatchRun ⟨"tok"⟩ httpFailsOnB (.str "P")
        [.obj [("content", .str "A")], .obj [("content", .str "B")],
         .obj [("content", .str "C")]]
      = ([batchRequest ⟨"tok"⟩ (.str "P") (.obj [("content", .str "A")]),
          batchRequest ⟨"tok"⟩ (.str "P") (.obj [("content", .str "B")])],
         .error ⟨400, Json.str "bad request"⟩) :=
  (create_batch_stops_at_first_error ⟨"tok"⟩ httpFailsOnB (.str "P")
    (.obj [("content", .str "B")]) [.obj [("content", .str "A")]]
    [.obj [("content", .str "C")]] (by decide) (by decide) (by decide)).1

/-- C5: with a constructed client, `create-batch` fails before issuing any
HTTP request when `--project` is missing, when `--file` is missing, or
when the file payload is not a JSON array; `load_tasks_from_file` raises a
`ValueError` on every non-array payload. -/
theorem create_batch_input_validation (w : Env) (http : Request → Response)
    (readFile : Json → Json) (args : Args) (c : TodoistClient) (payload : Json)
    (hinit : TodoistClient.init w = .ok c) (hcmd : args.command = "create-batch") :
    (args.project.truthy = false →
      runMain w http readFile args
        = ⟨[], [], .systemExit "create-batch requires --project"⟩) ∧
    (args.project.truthy = true → args.file.truthy = false →
      runMain w http readFile args
        = ⟨[], [], .systemExit "create-batch requires --file"⟩) ∧
    (args.project.truthy = true → args.file.truthy = true →
      readFile args.file = payload → payload.isArr = false →
      runMain w http readFile args
        = ⟨[], [], .valueError "Batch payload must be a JSON array."⟩) ∧
    (payload.isArr = false →
      load_tasks_from_file payload = .error "Batch payload must be a JSON array.") := by
  refine ⟨?_, ?_, ?_, ?_⟩
  · intro hp
    simp [runMain, hinit, hcmd, hp]
  · intro hp hf
    simp [runMain, hinit, hcmd, hp, hf]
  · intro hp hf hpay hshape
    simp [runMain, hinit, hcmd, hp, hf, hpay,
      load_tasks_from_file_not_arr payload hshape]
  · intro hshape
    exact load_tasks_from_file_not_arr payload hshape

/-- C5 witness: with a valid token, `create-batch` without `--project`
raises `SystemExit` with its diagnostic and issues no HTTP request. -/
theorem create_batch_input_validation_witness :
    runMain envWithToken httpAlwaysOk (fun _ => Json.null)
        { command := "create-batch" }
      = ⟨[], [], .systemExit "create-batch requires --project"⟩ :=
  (create_batch_input_validation envWithToken httpAlwaysOk (fun _ => Json.null)
    { command := "create-batch" } ⟨"tok"⟩ Json.null rfl rfl).1 rfl

/-- C1: credential resolution tries the `TODOIST_TOKEN` environment
variable, then the lowercase secret file, then the uppercase secret file,
first match winning; when the resolved token is missing or empty the
constructor prints a diagnostic to stderr and exits with code `1`, and no
CLI invocation in that world issues any HTTP request. -/
theorem credential_resolution (w : Env) :
    (∀ t, w.getenv "TODOIST_TOKEN" = some t → t.isEmpty = false →
      resolveToken w = some t) ∧
    (tokenFalsy (w.getenv "TODOIST_TOKEN") = true →
      w.fileExists "/run/secrets/todoist_token" = true →
      resolveToken w = some (w.fileContents "/run/secrets/todoist_token").trim) ∧
    (tokenFalsy (w.getenv "TODOIST_TOKEN") = true →
      w.fileExists "/run/secrets/todoist_token" = false →
      w.fileExists "/run/secrets/TODOIST_TOKEN" = true →
      resolveToken w = some (w.fileContents "/run/secrets/TODOIST_TOKEN").trim) ∧
    (tokenFalsy (resolveToken w) = true →
      TodoistClient.init w = .exited 1 missingTokenMsg ∧
      ∀ http readFile args,
        runMain w http readFile args = ⟨[], [], .initExit missingTokenMsg⟩ ∧
        (runMain w http readFile args).exitCode ≠ 0) ∧
    (tokenFalsy (resolveToken w) = false →
      TodoistClient.init w = .ok ⟨(resolveToken w).getD ""⟩ ∧
      ((resolveToken w).getD "").isEmpty = false) := by
  refine ⟨?_, ?_, ?_, ?_, ?_⟩
  · intro t h ht
    simp [resolveToken, h, tokenFalsy, ht]
  · intro he hl
    simp [resolveToken, he, hl]
  · intro he hl hu
    simp [resolveToken, he, hl, hu]
  · intro hf
    have hinit : TodoistClient.init w = .exited 1 missingTokenMsg := by
      simp [TodoistClient.init, hf]
    refine ⟨hinit, ?_⟩
    intro http readFile args
    have hrun : runMain w http readFile args = ⟨[], [], .initExit missingTokenMsg⟩ := by
      simp [runMain, hinit]
    exact ⟨hrun, by simp [hrun, CliResult.exitCode, CliOutcome.exitCode]⟩
  · intro hf
    refine ⟨by simp [TodoistClient.init, hf], ?_⟩
    cases hres : resolveToken w with
    | none => rw [hres] at hf; simp [tokenFalsy] at hf
    | some s =>
        rw [hres] at hf
        simpa [tokenFalsy] using hf

/-- C1 witness: in a world with no environment token and no secret files,
the constructor exits with code 1 and the diagnostic message. -/
theorem credential_resolution_witness :
    TodoistClient.init envNoToken = .exited 1 missingTokenMsg :=
  ((credential_resolution envNoToken).2.2.2.1 rfl).1

/-- C6 counterexample: a `304` response has a non-2xx status, yet none of
the five client operations raises on it — `raise_for_status` raises only
for 4xx/5xx — so "every non-2xx status raises" is false as stated. -/
theorem non2xx_not_always_raised :
    (304 < 200 ∨ 300 ≤ 304) ∧
    TodoistClient.list_tasks ⟨"tok"⟩ (fun _ => ⟨304, Json.null⟩) Json.null
      = .ok Json.null ∧
    TodoistClient.create_task ⟨"tok"⟩ (fun _ => ⟨304, Json.null⟩)
      (.str "c") (.str "p") .null .null = .ok Json.null ∧
    TodoistClient.update_task ⟨"tok"⟩ (fun _ => ⟨304, Json.null⟩)
      (.str "t") .null .null = .ok Json.null ∧
    TodoistClient.delete_task ⟨"tok"⟩ (fun _ => ⟨304, Json.null⟩) (.str "t")
      = .ok true ∧
    TodoistClient.complete_task ⟨"tok"⟩ (fun _ => ⟨304, Json.null⟩) (.str "t")
      = .ok true :=
  ⟨by decide, rfl, rfl, rfl, rfl, rfl⟩

/-- C6 (amended): every client operation raises a failure carrying the
response status and body exactly when the response status is 4xx/5xx
(client or server error), returns its result otherwise, performs no retry
(one request per call), and an uncaught failure terminates the CLI with
exit code 1. -/
theorem ops_fail_on_4xx_5xx (c : TodoistClient) (http : Request → Response)
    (project_id content labels description task_id : Json) :
    (c.list_tasks http project_id =
      (let resp := http (listTasksRequest c project_id)
       if isErrorStatus resp.status then .error ⟨resp.status, resp.body⟩
       else .ok resp.body)) ∧
    (c.create_task http content project_id labels description =
      (let resp := http (createTaskRequest c content project_id labels description)
       if isErrorStatus resp.status then .error ⟨resp.status, resp.body⟩
       else .ok resp.body)) ∧
    (c.update_task http task_id labels description =
      (let resp := http (updateTaskRequest c task_id labels description)
       if isErrorStatus resp.status then .error ⟨resp.status, resp.body⟩
       else .ok resp.body)) ∧
    (c.delete_task http task_id =
      (let resp := http (deleteTaskRequest c task_id)
       if isErrorStatus resp.status then .error ⟨resp.status, resp.body⟩
       else .ok true)) ∧
    (c.complete_task http task_id =
      (let resp := http (completeTaskRequest c task_id)
       if isErrorStatus resp.status then .error ⟨resp.status, resp.body⟩
       else .ok true)) ∧
    (∀ w readFile args, (runMain w http readFile args).outcome = .success
      ∨ (runMain w http readFile args).exitCode = 1) ∧
    (∀ w readFile args, TodoistClient.init w = .ok c → args.command = "list" →
      isErrorStatus (http (listTasksRequest c args.project)).status = true →
      runMain w http readFile args
        = ⟨[listTasksRequest c args.project], [],
           .httpError ⟨(http (listTasksRequest c args.project)).status,
                       (http (listTasksRequest c args.project)).body⟩⟩ ∧
      (runMain w http readFile args).exitCode = 1) := by
  refine ⟨?_, ?_, ?_, ?_, ?_, ?_, ?_⟩
  · cases h : isErrorStatus (http (listTasksRequest c project_id)).status <;>
      simp [TodoistClient.list_tasks, sendJson, raise_for_status, h]
  · cases h : isErrorStatus
        (http (createTaskRequest c content project_id labels description)).status <;>
      simp [TodoistClient.create_task, sendJson, raise_for_status, h]
  · cases h : isErrorStatus
        (http (updateTaskRequest c task_id labels description)).status <;>
      simp [TodoistClient.update_task, sendJson, raise_for_status, h]
  · cases h : isErrorStatus (http (deleteTaskRequest c task_id)).status <;>
      simp [TodoistClient.delete_task, sendTrue, raise_for_status, h]
  · cases h : isErrorStatus (http (completeTaskRequest c task_id)).status <;>
      simp [TodoistClient.complete_task, sendTrue, raise_for_status, h]
  · intro w readFile args
    cases h : (runMain w http readFile args).outcome with
    | success => exact Or.inl rfl
    | initExit m => exact Or.inr (by simp [CliResult.exitCode, h, CliOutcome.exitCode])
    | systemExit m => exact Or.inr (by simp [CliResult.exitCode, h, CliOutcome.exitCode])
    | valueError m => exact Or.inr (by simp [CliResult.exitCode, h, CliOutcome.exitCode])
    | httpError e => exact Or.inr (by simp [CliResult.exitCode, h, CliOutcome.exitCode])
  · intro w readFile args hinit hcmd herr
    have hrun : runMain w http readFile args
        = ⟨[listTasksRequest c args.project], [],
           .httpError ⟨(http (listTasksRequest c args.project)).status,
                       (http (listTasksRequest c args.project)).body⟩⟩ := by
      simp [runMain, hinit, hcmd, TodoistClient.list_tasks, sendJson,
        raise_for_status, herr]
    exact ⟨hrun, by simp [hrun, CliResult.exitCode, CliOutcome.exitCode]⟩

/-- C6 witness: with a valid token and an oracle answering 400 to
everything, the `list` subcommand ends in an uncaught `HTTPError` carrying
status 400 and the response body, and the process exits with code 1. -/
theorem ops_fail_on_4xx_5xx_witness :
    runMain envWithToken httpAlways400 (fun _ => Json.null) { command := "list" }
      = ⟨[listTasksRequest ⟨"tok"⟩ .null], [],
         .httpError ⟨400, Json.str "bad request"⟩⟩ :=
  ((ops_fail_on_4xx_5xx ⟨"tok"⟩ httpAlways400 .null .null .null .null .null).2.2.2.2.2.2
    envWithToken (fun _ => Json.null) { command := "list" } rfl rfl rfl).1

/-- C10: the `create` subcommand never forwards `--description` to the
client: two invocations differing only in `--description` produce the same
behaviour (same requests, output and exit), and no request issued by
`create` carries a `description` key in its body. -/
theorem create_ignores_description (w : Env) (http : Request → Response)
    (readFile : Json → Json) (args : Args) (d₁ d₂ : Json)
    (hcmd : args.command = "create") :
    runMain w http readFile { args with description := d₁ }
      = runMain w http readFile { args with description := d₂ } ∧
    ∀ req ∈ (runMain w http readFile { args with description := d₁ }).requests,
      ∀ body, req.body = some body → bodyLookup body "description" = none := by
  cases hinit : TodoistClient.init w with
  | exited code msg =>
      refine ⟨by simp [runMain, hinit], ?_⟩
      simp [runMain, hinit]
  | ok client =>
      have hreq : ∀ d : Json,
          runMain w http readFile { args with description := d }
            = (match client.create_task http args.content args.project
                  (cliLabels args.labels) with
               | .ok j =>
                   ⟨[createTaskRequest client args.content args.project
                       (cliLabels args.labels) .null], [j], .success⟩
               | .error e =>
                   ⟨[createTaskRequest client args.content args.project
                       (cliLabels args.labels) .null], [], .httpError e⟩) := by
        intro d
        simp [runMain, hinit, hcmd]
      refine ⟨by rw [hreq d₁, hreq d₂], ?_⟩
      rw [hreq d₁]
      intro req hmem body hbody
      have hr : req = createTaskRequest client args.content args.project
          (cliLabels args.labels) .null := by
        cases h : client.create_task http args.content args.project
            (cliLabels args.labels) <;> simp [h] at hmem <;> exact hmem
      have hb : body = createTaskBody args.content args.project
          (cliLabels args.labels) .null := by
        rw [hr] at hbody
        simpa [createTaskRequest] using hbody.symm
      rw [hb]
      exact createTaskBody_null_description _ _ _

/-- C10 witness: with a valid token and an all-200 oracle, two `create`
invocations that differ only in `--description` behave identically. -/
theorem create_ignores_description_witness :
    runMain envWithToken httpAlwaysOk (fun _ => Json.null)
        { command := "create", description := Json.str "D1" }
      = runMain envWithToken httpAlwaysOk (fun _ => Json.null)
        { command := "create", description := Json.str "D2" } :=
  (create_ignores_description envWithToken httpAlwaysOk (fun _ => Json.null)
    { command := "create" } (Json.str "D1") (Json.str "D2") rfl).1

/-- C7: `create_task` with content `"Buy milk"`, project `"proj1"` and no
labels/description argument produces the body exactly
`{"content": "Buy milk", "project_id": "proj1"}`, with no `labels` and no
`description` key. -/
theorem create_task_buy_milk_body :
    createTaskBody (.str "Buy milk") (.str "proj1") .null .null
      = [("content", .str "Buy milk"), ("project_id", .str "proj1")] ∧
    bodyLookup (createTaskBody (.str "Buy milk") (.str "proj1") .null .null)
      "labels" = none ∧
    bodyLookup (createTaskBody (.str "Buy milk") (.str "proj1") .null .null)
      "description" = none ∧
    ∀ c : TodoistClient,
      (createTaskRequest c (.str "Buy milk") (.str "proj1") .null .null).body
        = some [("content", .str "Buy milk"), ("project_id", .str "proj1")] :=
  ⟨rfl, rfl, rfl, fun _ => rfl⟩

/-- C8: `update_task` with id `"t1"`, labels `["a","b"]` and no
description argument produces the body exactly `{"labels": ["a","b"]}`,
with no `description` key. -/
theorem update_task_labels_only_body :
    updateTaskBody (.arr [.str "a", .str "b"]) .null
      = [("labels", .arr [.str "a", .str "b"])] ∧
    bodyLookup (updateTaskBody (.arr [.str "a", .str "b"]) .null)
      "description" = none ∧
    ∀ c : TodoistClient,
      (updateTaskRequest c (.str "t1") (.arr [.str "a", .str "b"]) .null).body
        = some [("labels", .arr [.str "a", .str "b"])] :=
  ⟨rfl, rfl, fun _ => rfl⟩

/-- C9: `list_tasks` with no project filter issues a GET request whose
query parameters are empty — in particular no `project_id` key at all. -/
theorem list_tasks_no_project_filter :
    listTasksParams .null = [] ∧
    ∀ c : TodoistClient,
      (listTasksRequest c .null).params = [] ∧
      bodyLookup (listTasksRequest c .null).params "project_id" = none ∧
      (listTasksRequest c .null).method = .get :=
  ⟨rfl, fun _ => ⟨rfl, rfl, rfl⟩⟩

/-- C2 counterexample: `create_task` tests its optional arguments for
truthiness, so an explicitly supplied empty list of labels (or empty
description string) is dropped from the body, contrary to the claim that
a field supplied with an empty value is still included. -/
theorem create_task_drops_empty_optionals :
    createTaskBody (.str "c") (.str "p") (.arr []) .null
      = [("content", .str "c"), ("project_id", .str "p")] ∧
    bodyLookup (createTaskBody (.str "c") (.str "p") (.arr []) .null)
      "labels" = none ∧
    bodyLookup (createTaskBody (.str "c") (.str "p") .null (.str ""))
      "description" = none :=
  ⟨rfl, rfl, rfl⟩

/-- C2 (amended): `update_task` includes each optional field exactly when
its value is not `None` (explicitly supplied empty values are included),
while `create_task` includes each optional field exactly when its value is
truthy — so an empty list or empty string supplied to `create_task` is
omitted from the body. -/
theorem optional_field_inclusion (content project labels description : Json) :
    (bodyLookup (updateTaskBody labels description) "labels"
      = if labels.isNull then none else some labels) ∧
    (bodyLookup (updateTaskBody labels description) "description"
      = if description.isNull then none else some description) ∧
    (bodyLookup (createTaskBody content project labels description) "labels"
      = if labels.truthy then some labels else none) ∧
    (bodyLookup (createTaskBody content project labels description) "description"
      = if description.truthy then some description else none) := by
  refine ⟨?_, ?_, ?_, ?_⟩
  · unfold updateTaskBody
    cases hl : labels.isNull <;> cases hd : description.isNull <;>
      simp [hl, hd, bodyLookup, List.find?]
  · unfold updateTaskBody
    cases hl : labels.isNull <;> cases hd : description.isNull <;>
      simp [hl, hd, bodyLookup, List.find?]
  · unfold createTaskBody
    cases hl : labels.truthy <;> cases hd : description.truthy <;>
      simp [hl, hd, bodyLookup, List.find?]
  · unfold createTaskBody
    cases hl : labels.truthy <;> cases hd : description.truthy <;>
      simp [hl, hd, bodyLookup, List.find?]

end Todoist
